import Mathlib

/-!
# Authentication handlers of `index.js`

A shallow embedding of the three request handlers of `src/index.js`
(`POST /register`, `POST /login`, `GET /welcome`) together with the parts of
their collaborators the handlers rely on: the `User` schema (trim, required,
unique), the in-memory `userSessions` object, the password hasher and
`decodeURIComponent`.

Conventions.
* A request field is `Option String`: `none` when the field is absent from
  `req.body` / `req.query`, `some s` when it is the string `s`.
* Every handler returns the response, the state after the request and the list
  of effects (`findOne`, `hash`, `compare`, `save`, session write) it
  performed, in order.
* The hasher, the clock, the random source and infrastructure faults are
  inputs, gathered in `Env`.
-/

set_option autoImplicit false

namespace WebApp

/-! ## Values -/

/-- A thrown JavaScript error: its constructor name and its message. -/
structure JsError where
  name : String
  message : String
  deriving DecidableEq, Repr

deriving instance DecidableEq for Except

/-- A value placed in a JSON response body. -/
inductive JVal where
  | bool (b : Bool)
  | str (s : String)
  deriving DecidableEq, Repr

/-- What a handler sends back. -/
inductive Response where
  /-- `res.status(code).json(body)`; `res.json(body)` is status 200. -/
  | json (status : Nat) (body : List (String × JVal))
  /-- `res.redirect(location)`. -/
  | redirect (location : String)
  /-- `res.send(page)` with a string: status 200, HTML. -/
  | send (status : Nat) (page : String)
  deriving DecidableEq, Repr

/-- The status code of a response (`res.redirect` answers 302). -/
def Response.status : Response → Nat
  | .json s _ => s
  | .redirect _ => 302
  | .send s _ => s

/-- The keys of a JSON response body; empty for the other responses. -/
def Response.keys : Response → List String
  | .json _ b => b.map Prod.fst
  | .redirect _ => []
  | .send _ _ => []

/-- Truthiness of a request field: `!x` is true exactly when the field is
absent or the empty string. -/
def falsy : Option String → Bool
  | none => true
  | some s => s == ""

/-! ## `String.prototype.trim` -/

/-- The code points removed by `String.prototype.trim` (WhiteSpace and
LineTerminator of ECMAScript). -/
def jsIsWhiteSpace (c : Char) : Bool :=
  let n := c.toNat
  n == 0x09 || n == 0x0A || n == 0x0B || n == 0x0C || n == 0x0D || n == 0x20 ||
  n == 0xA0 || n == 0x1680 || (0x2000 ≤ n && n ≤ 0x200A) || n == 0x2028 ||
  n == 0x2029 || n == 0x202F || n == 0x205F || n == 0x3000 || n == 0xFEFF

/-- Leading and trailing white space removed, on a list of characters. -/
def jsTrimChars (cs : List Char) : List Char :=
  ((cs.dropWhile jsIsWhiteSpace).reverse.dropWhile jsIsWhiteSpace).reverse

/-- The `trim` setter of the schema. -/
def jsTrim (s : String) : String := String.mk (jsTrimChars s.data)

/-! ## The `User` collection -/

/-- A document of the `User` collection (`userSchema`, plus `_id`). -/
structure UserDoc where
  _id : Nat
  username : String
  email : String
  password : String
  deriving DecidableEq, Repr

/-- The session record written by the login handler. -/
structure Session where
  userId : Nat
  username : String
  email : String
  timestamp : Nat
  deriving DecidableEq, Repr

/-- The query filters the handlers pass to `User.findOne`. -/
inductive Filter where
  /-- `{ $or: [{ username }, { email }] }` -/
  | usernameOrEmail (username email : String)
  /-- `{ username }` -/
  | username (username : String)
  deriving DecidableEq, Repr

/-- Whether a stored document matches a filter. The filter is cast with the
schema before it is sent, which runs the `trim` setter of `username` and
`email` on the filter's values: a padded value matches the trimmed stored one. -/
def Filter.matches : Filter → UserDoc → Bool
  | .usernameOrEmail u e, d => d.username == jsTrim u || d.email == jsTrim e
  | .username u, d => d.username == jsTrim u

/-- Process state: the `User` collection and the `userSessions` object
(own string keys in insertion order). -/
structure World where
  users : List UserDoc
  sessions : List (String × Session)
  deriving DecidableEq, Repr

/-- Inputs of one request that the handler does not control. -/
structure Env where
  /-- `bcrypt.hash(data, rounds)`: the digest, or the error it rejects with. -/
  bcryptHash : String → Nat → Except JsError String
  /-- `bcrypt.compare(data, digest)`. -/
  bcryptCompare : String → String → Except JsError Bool
  /-- An infrastructure failure of `findOne` during this request, if any. -/
  findOneFault : Option JsError
  /-- An error the store raises on the insert of this request, if any: a lost
  connection, or the duplicate-key rejection that follows an insert made by
  another request between this handler's lookup and its save. -/
  saveFault : Option JsError
  /-- The `_id` given to a document constructed during this request. -/
  objectId : Nat
  /-- `Date.now()` at its k-th call during this request. -/
  dateNow : Nat → Nat
  /-- The text of `Math.random()` when concatenated to a string. -/
  mathRandom : String

/-- An operation on a collaborator, with its outcome. -/
inductive Effect where
  | findOne (filter : Filter) (result : Except JsError (Option UserDoc))
  | hash (data : String) (rounds : Nat) (result : Except JsError String)
  | compare (data digest : String) (result : Except JsError Bool)
  | save (doc : UserDoc) (result : Except JsError Unit)
  | sessionPut (id : String) (session : Session)
  deriving DecidableEq

/-- Whether the operation is a store write. -/
def Effect.isSave : Effect → Bool
  | .save _ _ => true
  | _ => false

/-- `User.findOne(filter)`: the first matching document, or `null`. -/
def findOne (env : Env) (w : World) (f : Filter) : Except JsError (Option UserDoc) :=
  match env.findOneFault with
  | some err => .error err
  | none => .ok (w.users.find? f.matches)

/-- `new User({ username, email, password })`: the schema setters trim
`username` and `email`. -/
def newUser (env : Env) (username email password : String) : UserDoc :=
  { _id := env.objectId, username := jsTrim username, email := jsTrim email,
    password := password }

/-- The `required: true` validator of a string path: non-empty. -/
def requiredOk (d : UserDoc) : Bool :=
  d.username != "" && d.email != "" && d.password != ""

/-- The `unique: true` indexes: no stored document with the same username or
the same email. -/
def uniqueOk (users : List UserDoc) (d : UserDoc) : Bool :=
  users.all (fun x => x.username != d.username && x.email != d.email)

/-- `doc.save()` of a new document: validation, then the insert, which the
unique indexes may reject. -/
def save (env : Env) (w : World) (d : UserDoc) : Except JsError World :=
  if !requiredOk d then
    .error ⟨"ValidationError", "User validation failed"⟩
  else
    match env.saveFault with
    | some err => .error err
    | none =>
      if !uniqueOk w.users d then
        .error ⟨"MongoServerError", "E11000 duplicate key error"⟩
      else
        .ok { w with users := w.users ++ [d] }

/-! ## Responses -/

/-- `res.status(400).json({ error: msg })`. -/
def badRequest (msg : String) : Response :=
  .json 400 [("error", .str msg)]

/-- `res.status(500).json({ error: msg })`. -/
def serverError (msg : String) : Response :=
  .json 500 [("error", .str msg)]

/-- The acknowledgment of a registration. -/
def registerSuccess : Response :=
  .json 200 [("success", .bool true),
    ("message", .str "User registered successfully. Please login.")]

/-- The body of a successful login. -/
def loginSuccess (username email : String) : Response :=
  .json 200 [("success", .bool true), ("username", .str username),
    ("email", .str email), ("message", .str "Login successful")]

/-- The result of handling a request. -/
structure Outcome where
  response : Response
  world : World
  effects : List Effect

/-! ## `POST /register` -/

/-- The body of a registration request. -/
structure RegisterBody where
  username : Option String
  email : Option String
  password : Option String
  confirmPassword : Option String
  deriving DecidableEq, Repr

/-- The `try` block of the register route: `.error` is a thrown error. The
guard `!username || !email || !password || !confirmPassword` is the last arm
of the `match` (a field is absent) together with the emptiness test (a field
is the empty string). -/
def registerTry (env : Env) (w : World) (req : RegisterBody) :
    Except JsError Response × World × List Effect :=
  match req.username, req.email, req.password, req.confirmPassword with
  | some username, some email, some password, some confirmPassword =>
    if username == "" || email == "" || password == "" || confirmPassword == "" then
      (.ok (badRequest "All fields are required"), w, [])
    else if password != confirmPassword then
      (.ok (badRequest "Passwords do not match"), w, [])
    else
      let found := findOne env w (.usernameOrEmail username email)
      let e1 := [Effect.findOne (.usernameOrEmail username email) found]
      match found with
      | .error err => (.error err, w, e1)
      | .ok (some _) => (.ok (badRequest "Username or email already exists"), w, e1)
      | .ok none =>
        let hashed := env.bcryptHash password 10
        let e2 := e1 ++ [Effect.hash password 10 hashed]
        match hashed with
        | .error err => (.error err, w, e2)
        | .ok hashedPassword =>
          let doc := newUser env username email hashedPassword
          match save env w doc with
          | .error err => (.error err, w, e2 ++ [Effect.save doc (.error err)])
          | .ok w' => (.ok registerSuccess, w', e2 ++ [Effect.save doc (.ok ())])
  | _, _, _, _ => (.ok (badRequest "All fields are required"), w, [])

/-- The register route: the `try` block, and the `catch` that answers 500. -/
def registerHandler (env : Env) (w : World) (req : RegisterBody) : Outcome :=
  match registerTry env w req with
  | (.ok res, w', effs) => ⟨res, w', effs⟩
  | (.error _, w', effs) => ⟨serverError "Registration failed", w', effs⟩

/-! ## `POST /login` -/

/-- The body of a login request. -/
structure LoginBody where
  username : Option String
  password : Option String
  deriving DecidableEq, Repr

/-- The value of `userSessions[k]`, if `k` is a key. -/
def sessionsGet (m : List (String × Session)) (k : String) : Option Session :=
  (m.find? (fun e => e.1 == k)).map Prod.snd

/-- The assignment `userSessions[k] = v`: an existing key keeps its place and
takes the new value, a new key is appended. -/
def sessionsPut (m : List (String × Session)) (k : String) (v : Session) :
    List (String × Session) :=
  if m.any (fun e => e.1 == k) then
    m.map (fun e => if e.1 == k then (k, v) else e)
  else
    m ++ [(k, v)]

/-- The expression `'session_' + Date.now() + '_' + Math.random()`. -/
def sessionIdOf (env : Env) : String :=
  "session_" ++ toString (env.dateNow 0) ++ "_" ++ env.mathRandom

/-- The session record of a user, stamped with the second `Date.now()`. -/
def sessionOf (env : Env) (user : UserDoc) : Session :=
  { userId := user._id, username := user.username, email := user.email,
    timestamp := env.dateNow 1 }

/-- The `try` block of the login route: `.error` is a thrown error. The guard
`!username || !password` is the last arm of the `match` together with the
emptiness test. -/
def loginTry (env : Env) (w : World) (req : LoginBody) :
    Except JsError Response × World × List Effect :=
  match req.username, req.password with
  | some username, some password =>
    if username == "" || password == "" then
      (.ok (badRequest "Username and password are required"), w, [])
    else
      let found := findOne env w (.username username)
      let e1 := [Effect.findOne (.username username) found]
      match found with
      | .error err => (.error err, w, e1)
      | .ok none => (.ok (badRequest "Invalid username or password"), w, e1)
      | .ok (some user) =>
        let isPasswordValid := env.bcryptCompare password user.password
        let e2 := e1 ++ [Effect.compare password user.password isPasswordValid]
        match isPasswordValid with
        | .error err => (.error err, w, e2)
        | .ok false => (.ok (badRequest "Invalid username or password"), w, e2)
        | .ok true =>
          let sessionId := sessionIdOf env
          let session := sessionOf env user
          (.ok (loginSuccess user.username user.email),
            { w with sessions := sessionsPut w.sessions sessionId session },
            e2 ++ [Effect.sessionPut sessionId session])
  | _, _ => (.ok (badRequest "Username and password are required"), w, [])

/-- The login route: the `try` block, and the `catch` that answers 500. -/
def loginHandler (env : Env) (w : World) (req : LoginBody) : Outcome :=
  match loginTry env w req with
  | (.ok res, w', effs) => ⟨res, w', effs⟩
  | (.error _, w', effs) => ⟨serverError "Login failed", w', effs⟩

/-! ## `decodeURIComponent` -/

/-- The error thrown on a malformed escape sequence. -/
def uriError : JsError := ⟨"URIError", "URI malformed"⟩

/-- The value of a hexadecimal digit. -/
def hexVal (c : Char) : Option Nat :=
  let n := c.toNat
  if 48 ≤ n ∧ n ≤ 57 then some (n - 48)
  else if 65 ≤ n ∧ n ≤ 70 then some (n - 55)
  else if 97 ≤ n ∧ n ≤ 102 then some (n - 87)
  else none

/-- The byte of an escape `%XX` at the head of the input, and what follows. -/
def readEscape : List Char → Option (Nat × List Char)
  | '%' :: h :: l :: rest =>
    match hexVal h, hexVal l with
    | some a, some b => some (16 * a + b, rest)
    | _, _ => none
  | _ => none

/-- The bytes of `n` consecutive escapes, and what follows. -/
def readEscapes : Nat → List Char → Option (List Nat × List Char)
  | 0, cs => some ([], cs)
  | n + 1, cs =>
    match readEscape cs with
    | none => none
    | some (b, rest) =>
      match readEscapes n rest with
      | none => none
      | some (bs, rest') => some (b :: bs, rest')

/-- The number of leading 1 bits of a byte (5 stands for five or more). -/
def leadingOnes (b : Nat) : Nat :=
  if b < 0x80 then 0 else if b < 0xC0 then 1 else if b < 0xE0 then 2
  else if b < 0xF0 then 3 else if b < 0xF8 then 4 else 5

/-- The code point encoded in UTF-8 by the lead byte `b` and the continuation
bytes `tail`, when the encoding is valid (continuation bytes `10xxxxxx`,
shortest form, no surrogate, at most U+10FFFF). -/
def utf8CodePoint (b : Nat) (tail : List Nat) : Option Nat :=
  if tail.all (fun t => 0x80 ≤ t && t < 0xC0) then
    let v := tail.foldl (fun acc t => acc * 64 + (t - 0x80)) (b % 2 ^ (6 - tail.length))
    let least := if tail.length = 1 then 0x80 else if tail.length = 2 then 0x800 else 0x10000
    if least ≤ v ∧ v ≤ 0x10FFFF ∧ ¬ (0xD800 ≤ v ∧ v ≤ 0xDFFF) then some v else none
  else none

/-- The decoding loop of `decodeURIComponent`; each round consumes at least one
character, so a fuel of the input length is enough. -/
def decodeChars : Nat → List Char → Except JsError (List Char)
  | _, [] => .ok []
  | 0, _ :: _ => .error uriError
  | fuel + 1, c :: rest =>
    if c != '%' then
      match decodeChars fuel rest with
      | .error e => .error e
      | .ok out => .ok (c :: out)
    else
      match readEscape (c :: rest) with
      | none => .error uriError
      | some (b, rest1) =>
        let n := leadingOnes b
        if n = 0 then
          match decodeChars fuel rest1 with
          | .error e => .error e
          | .ok out => .ok (Char.ofNat b :: out)
        else if n = 1 ∨ n > 4 then .error uriError
        else
          match readEscapes (n - 1) rest1 with
          | none => .error uriError
          | some (bs, rest2) =>
            match utf8CodePoint b bs with
            | none => .error uriError
            | some v =>
              match decodeChars fuel rest2 with
              | .error e => .error e
              | .ok out => .ok (Char.ofNat v :: out)

/-- The builtin `decodeURIComponent`: the decoded string, or the `URIError`
it throws. -/
def decodeURIComponent (s : String) : Except JsError String :=
  match decodeChars s.length s.data with
  | .error e => .error e
  | .ok out => .ok (String.mk out)

/-! ## `GET /welcome` -/

/-- The query of a welcome request. -/
structure WelcomeQuery where
  username : Option String
  email : Option String
  deriving DecidableEq, Repr

/-- The template text before the username. -/
def welcomeHead : String :=
  "
    <!DOCTYPE html>
    <html lang=\"en\">
    <head>
      <meta charset=\"UTF-8\">
      <meta name=\"viewport\" content=\"width=device-width, initial-scale=1.0\">
      <title>Welcome</title>
      <style>
        * \x7b
          margin: 0;
          padding: 0;
          box-sizing: border-box;
        \x7d

        body \x7b
          font-family: Arial, sans-serif;
          background: linear-gradient(135deg, #667eea 0%, #764ba2 100%);
          display: flex;
          justify-content: center;
          align-items: center;
          height: 100vh;
          padding: 20px;
        \x7d

        .welcome-container \x7b
          background: white;
          padding: 60px 40px;
          border-radius: 10px;
          box-shadow: 0 10px 25px rgba(0, 0, 0, 0.2);
          text-align: center;
          max-width: 500px;
          width: 100%;
        \x7d

        h1 \x7b
          color: #667eea;
          font-size: 36px;
          margin-bottom: 15px;
        \x7d

        .username \x7b
          color: #764ba2;
          font-size: 28px;
          font-weight: bold;
          margin-bottom: 30px;
        \x7d

        p \x7b
          color: #666;
          font-size: 16px;
          margin-bottom: 20px;
          line-height: 1.6;
        \x7d

        .info-box \x7b
          background-color: #f0f0f0;
          padding: 15px;
          border-radius: 5px;
          margin: 20px 0;
          border-left: 4px solid #667eea;
        \x7d

        .info-box strong \x7b
          color: #667eea;
        \x7d

        a \x7b
          display: inline-block;
          margin-top: 30px;
          padding: 12px 30px;
          background: linear-gradient(135deg, #667eea 0%, #764ba2 100%);
          color: white;
          text-decoration: none;
          border-radius: 5px;
          font-weight: bold;
          transition: transform 0.2s;
        \x7d

        a:hover \x7b
          transform: scale(1.05);
        \x7d
      </style>
    </head>
    <body>
      <div class=\"welcome-container\">
        <h1>Welcome!</h1>
        <div class=\"username\">"

/-- The template text between the username and the email. -/
def welcomeMiddle : String :=
  "</div>
        <p>You have successfully logged in to your account.</p>
        <div class=\"info-box\">
          <strong>Email:</strong> "

/-- The template text after the email. -/
def welcomeTail : String :=
  "
        </div>
        <a href=\"/\">Logout</a>
      </div>
    </body>
    </html>
  "

/-- The template literal `welcomePage`, given the two interpolated values. -/
def welcomePage (username email : String) : String :=
  welcomeHead ++ username ++ welcomeMiddle ++ email ++ welcomeTail

/-- The welcome route. It has no `try`: `.error` is an error thrown out of the
handler. -/
def welcomeHandler (q : WelcomeQuery) : Except JsError Response :=
  match q.username, q.email with
  | some username, some email =>
    if username == "" || email == "" then
      .ok (.redirect "/")
    else
      match decodeURIComponent username with
      | .error e => .error e
      | .ok u =>
        match decodeURIComponent email with
        | .error e => .error e
        | .ok m => .ok (.send 200 (welcomePage u m))
  | _, _ => .ok (.redirect "/")

/-! ## A concrete environment

Used to evaluate the handlers on concrete requests. -/

/-- A stand-in for the hasher: the digest is the plaintext behind a fixed
marker, and comparison recomputes it. It is not bcrypt. -/
def sampleHash (data : String) (rounds : Nat) : Except JsError String :=
  .ok ("$2b$" ++ toString rounds ++ "$" ++ data)

/-- The comparison of the stand-in hasher. -/
def sampleCompare (data digest : String) : Except JsError Bool :=
  .ok (digest == "$2b$10$" ++ data)

/-- An environment without faults. -/
def sampleEnv : Env :=
  { bcryptHash := sampleHash, bcryptCompare := sampleCompare,
    findOneFault := none, saveFault := none, objectId := 1,
    dateNow := fun _ => 1000, mathRandom := "0.5" }

/-- An environment whose store is unreachable. -/
def downEnv : Env :=
  { sampleEnv with
    findOneFault := some ⟨"MongoNetworkError", "connection refused"⟩,
    saveFault := some ⟨"MongoNetworkError", "connection refused"⟩ }

/-- An environment in which another request inserts the same username between
the lookup and the save: the insert is rejected by the unique index. -/
def racedEnv : Env :=
  { sampleEnv with
    saveFault := some ⟨"MongoServerError", "E11000 duplicate key error"⟩ }

/-- An environment whose hasher rejects. -/
def brokenHasherEnv : Env :=
  { sampleEnv with
    bcryptHash := fun _ _ => .error ⟨"Error", "data and salt arguments required"⟩,
    bcryptCompare := fun _ _ => .error ⟨"Error", "data and hash arguments required"⟩ }

/-- The state before any registration. -/
def emptyWorld : World := { users := [], sessions := [] }

/-- A stored user whose digest comes from `sampleHash "Secret1!" 10`. -/
def alice : UserDoc :=
  { _id := 1, username := "alice", email := "a@x.com", password := "$2b$10$Secret1!" }

/-- A state holding `alice` and no session. -/
def aliceWorld : World := { users := [alice], sessions := [] }

/-- A second stored user, whose digest comes from `sampleHash "hunter2" 10`. -/
def bob : UserDoc :=
  { _id := 2, username := "bob", email := "b@x.com", password := "$2b$10$hunter2" }

/-- A state holding a document whose username is padded (not written through
the schema). -/
def paddedWorld : World :=
  { users := [⟨7, " alice", "p@x.com", "$2b$10$Secret1!"⟩], sessions := [] }

/-- A state holding `alice` and `bob` and no session. -/
def twoUsersWorld : World := { users := [alice, bob], sessions := [] }

/-- The state `twoUsersWorld` after a login of `alice` under `sampleEnv`. -/
def staleWorld : World :=
  { users := [alice, bob],
    sessions := [("session_1000_0.5", ⟨1, "alice", "a@x.com", 1000⟩)] }

end WebApp

namespace WebApp

/-! ## Lemmas on the collaborators -/

/-- Without a fault, the lookup returns the first matching document. -/
theorem findOne_ok (env : Env) (w : World) (f : Filter) (h : env.findOneFault = none) :
    findOne env w f = .ok (w.users.find? f.matches) := by
  simp [findOne, h]

/-- A valid document that collides with none is appended. -/
theorem save_ok (env : Env) (w : World) (d : UserDoc)
    (hr : requiredOk d = true) (hs : env.saveFault = none) (hu : uniqueOk w.users d = true) :
    save env w d = .ok { w with users := w.users ++ [d] } := by
  simp [save, hr, hs, hu]

/-- A successful `save` appends the document and nothing else. -/
theorem save_ok_inv (env : Env) (w w' : World) (d : UserDoc) (h : save env w d = .ok w') :
    w' = { w with users := w.users ++ [d] } := by
  unfold save at h
  cases hs : env.saveFault with
  | some err =>
    simp only [hs] at h
    split_ifs at h
  | none =>
    simp only [hs] at h
    split_ifs at h
    cases h
    rfl

/-! ## Validation (C3, C8) -/

/-- C3: a registration request with a missing (absent or empty) field, or with
password different from confirm-password, is answered 400 with one of the two
validation messages, performs no operation on the store or the hasher (no
lookup, no hash, no insert) and leaves the state unchanged. -/
theorem register_invalid_no_store_access (env : Env) (w : World) (req : RegisterBody)
    (h : falsy req.username = true ∨ falsy req.email = true ∨ falsy req.password = true ∨
      falsy req.confirmPassword = true ∨ req.password ≠ req.confirmPassword) :
    ((registerHandler env w req).response = badRequest "All fields are required" ∨
      (registerHandler env w req).response = badRequest "Passwords do not match") ∧
    (registerHandler env w req).response.status = 400 ∧
    (registerHandler env w req).effects = [] ∧
    (registerHandler env w req).world = w := by
  obtain ⟨u, e, p, c⟩ := req
  cases u <;> cases e <;> cases p <;> cases c <;>
    simp [registerHandler, registerTry, falsy, badRequest, Response.status] at h ⊢
  split_ifs <;> simp_all

theorem register_invalid_no_store_access_witness :
    (falsy (some "alice") = true ∨ falsy (some "b@x.com") = true ∨
      falsy (some "Secret1!") = true ∨ falsy (some "Secret2!") = true ∨
      (some "Secret1!" : Option String) ≠ some "Secret2!") ∧
    (registerHandler sampleEnv aliceWorld
      ⟨some "alice", some "b@x.com", some "Secret1!", some "Secret2!"⟩).response
        = badRequest "Passwords do not match" ∧
    (registerHandler sampleEnv aliceWorld
      ⟨some "alice", some "b@x.com", some "Secret1!", some "Secret2!"⟩).effects = [] ∧
    (registerHandler sampleEnv aliceWorld
      ⟨some "alice", some "b@x.com", some "Secret1!", some "Secret2!"⟩).world = aliceWorld :=
  have h := register_invalid_no_store_access sampleEnv aliceWorld
    ⟨some "alice", some "b@x.com", some "Secret1!", some "Secret2!"⟩ (by decide)
  ⟨by decide, by decide, h.2.2.1, h.2.2.2⟩

/-- C8: a login request with a missing (absent or empty) username or password
is answered 400 `Username and password are required`, performs no store lookup
and no hash comparison, and leaves the state (the session registry in
particular) unchanged. -/
theorem login_invalid_no_lookup (env : Env) (w : World) (req : LoginBody)
    (h : falsy req.username = true ∨ falsy req.password = true) :
    (loginHandler env w req).response = badRequest "Username and password are required" ∧
    (loginHandler env w req).response.status = 400 ∧
    (loginHandler env w req).effects = [] ∧
    (loginHandler env w req).world.sessions = w.sessions ∧
    (loginHandler env w req).world = w := by
  obtain ⟨u, p⟩ := req
  cases u <;> cases p <;>
    simp [loginHandler, loginTry, falsy, badRequest, Response.status] at h ⊢
  split_ifs
  simp_all

theorem login_invalid_no_lookup_witness :
    (falsy (some "alice") = true ∨ falsy (some "") = true) ∧
    (loginHandler sampleEnv aliceWorld ⟨some "alice", some ""⟩).response
      = badRequest "Username and password are required" ∧
    (loginHandler sampleEnv aliceWorld ⟨some "alice", some ""⟩).effects = [] ∧
    (loginHandler sampleEnv aliceWorld ⟨some "alice", some ""⟩).world = aliceWorld :=
  have h := login_invalid_no_lookup sampleEnv aliceWorld ⟨some "alice", some ""⟩ (by decide)
  ⟨by decide, h.1, h.2.2.1, h.2.2.2.2⟩

/-! ## Bad credentials (C4) -/

/-- C4: of two login requests with username and password present, one whose
lookup finds no user and one whose lookup finds a user but whose password does
not verify against the stored digest, the responses are identical: status 400
with body `error: Invalid username or password`. -/
theorem login_auth_error_identical (env₁ env₂ : Env) (w₁ w₂ : World)
    (u₁ p₁ u₂ p₂ : String) (user : UserDoc)
    (hu₁ : u₁ ≠ "") (hp₁ : p₁ ≠ "") (hu₂ : u₂ ≠ "") (hp₂ : p₂ ≠ "")
    (hunknown : findOne env₁ w₁ (.username u₁) = .ok none)
    (hknown : findOne env₂ w₂ (.username u₂) = .ok (some user))
    (hwrong : env₂.bcryptCompare p₂ user.password = .ok false) :
    (loginHandler env₁ w₁ ⟨some u₁, some p₁⟩).response
      = (loginHandler env₂ w₂ ⟨some u₂, some p₂⟩).response ∧
    (loginHandler env₁ w₁ ⟨some u₁, some p₁⟩).response
      = .json 400 [("error", .str "Invalid username or password")] ∧
    (loginHandler env₂ w₂ ⟨some u₂, some p₂⟩).response
      = .json 400 [("error", .str "Invalid username or password")] := by
  simp [loginHandler, loginTry, hu₁, hp₁, hu₂, hp₂, hunknown, hknown, hwrong, badRequest]

theorem login_auth_error_identical_witness :
    (loginHandler sampleEnv aliceWorld ⟨some "bob", some "Secret1!"⟩).response
      = (loginHandler sampleEnv aliceWorld ⟨some "alice", some "wrong"⟩).response :=
  (login_auth_error_identical sampleEnv sampleEnv aliceWorld aliceWorld
    "bob" "Secret1!" "alice" "wrong" alice (by decide) (by decide) (by decide) (by decide)
    (by decide) (by decide) (by decide)).1

/-! ## Infrastructure failures (C9) -/

/-- C9: when `findOne`, `bcrypt.hash` or `save` raises during a registration,
or `findOne` or `bcrypt.compare` raises during a login, the response is status
500 with the one-field body `error: Registration failed` (respectively
`error: Login failed`), whatever the error raised, and the state is unchanged.
The duplicate-key error by which the store rejects an insert is one such case.
A login not answered 200 leaves the session registry unchanged. -/
theorem failure_answers_generic_500 (env : Env) (w : World) (u e p : String)
    (hu : u ≠ "") (he : e ≠ "") (hp : p ≠ "") :
    (∀ err, findOne env w (.usernameOrEmail u e) = .error err →
      (registerHandler env w ⟨some u, some e, some p, some p⟩).response
        = .json 500 [("error", .str "Registration failed")] ∧
      (registerHandler env w ⟨some u, some e, some p, some p⟩).world = w) ∧
    (∀ err, findOne env w (.usernameOrEmail u e) = .ok none →
      env.bcryptHash p 10 = .error err →
      (registerHandler env w ⟨some u, some e, some p, some p⟩).response
        = .json 500 [("error", .str "Registration failed")] ∧
      (registerHandler env w ⟨some u, some e, some p, some p⟩).world = w) ∧
    (∀ d err, findOne env w (.usernameOrEmail u e) = .ok none →
      env.bcryptHash p 10 = .ok d →
      save env w (newUser env u e d) = .error err →
      (registerHandler env w ⟨some u, some e, some p, some p⟩).response
        = .json 500 [("error", .str "Registration failed")] ∧
      (registerHandler env w ⟨some u, some e, some p, some p⟩).world = w) ∧
    (∀ d, findOne env w (.usernameOrEmail u e) = .ok none →
      env.bcryptHash p 10 = .ok d →
      save env w (newUser env u e d)
        = .error ⟨"MongoServerError", "E11000 duplicate key error"⟩ →
      (registerHandler env w ⟨some u, some e, some p, some p⟩).response
        = .json 500 [("error", .str "Registration failed")] ∧
      (registerHandler env w ⟨some u, some e, some p, some p⟩).world = w) ∧
    (∀ err, findOne env w (.username u) = .error err →
      (loginHandler env w ⟨some u, some p⟩).response
        = .json 500 [("error", .str "Login failed")] ∧
      (loginHandler env w ⟨some u, some p⟩).world = w) ∧
    (∀ user err, findOne env w (.username u) = .ok (some user) →
      env.bcryptCompare p user.password = .error err →
      (loginHandler env w ⟨some u, some p⟩).response
        = .json 500 [("error", .str "Login failed")] ∧
      (loginHandler env w ⟨some u, some p⟩).world = w) ∧
    (∀ req : LoginBody, (loginHandler env w req).response.status ≠ 200 →
      (loginHandler env w req).world.sessions = w.sessions) := by
  refine ⟨?_, ?_, ?_, ?_, ?_, ?_, ?_⟩
  · intro err h
    simp [registerHandler, registerTry, hu, he, hp, h, serverError]
  · intro err h hh
    simp [registerHandler, registerTry, hu, he, hp, h, hh, serverError]
  · intro d err h hh hs
    simp [registerHandler, registerTry, hu, he, hp, h, hh, hs, serverError]
  · intro d h hh hsave
    simp [registerHandler, registerTry, hu, he, hp, h, hh, hsave, serverError]
  · intro err h
    simp [loginHandler, loginTry, hu, hp, h, serverError]
  · intro user err h hc
    simp [loginHandler, loginTry, hu, hp, h, hc, serverError]
  · intro req hst
    obtain ⟨a, b⟩ := req
    cases a with
    | none => simp [loginHandler, loginTry]
    | some a =>
      cases b with
      | none => simp [loginHandler, loginTry]
      | some b =>
        by_cases hab : (a == "" || b == "") = true
        · simp [loginHandler, loginTry, hab]
        · rcases hf : findOne env w (.username a) with err | _ | user
          · simp [loginHandler, loginTry, hab, hf]
          · simp [loginHandler, loginTry, hab, hf]
          · rcases hc : env.bcryptCompare b user.password with err | _ | _
            · simp [loginHandler, loginTry, hab, hf, hc]
            · simp [loginHandler, loginTry, hab, hf, hc]
            · simp [loginHandler, loginTry, hab, hf, hc, loginSuccess, Response.status] at hst

theorem failure_answers_generic_500_witness :
    (registerHandler downEnv emptyWorld
      ⟨some "bob", some "b@x.com", some "pw", some "pw"⟩).response
        = .json 500 [("error", .str "Registration failed")] ∧
    (registerHandler brokenHasherEnv emptyWorld
      ⟨some "bob", some "b@x.com", some "pw", some "pw"⟩).response
        = .json 500 [("error", .str "Registration failed")] ∧
    (registerHandler racedEnv emptyWorld
      ⟨some "bob", some "b@x.com", some "pw", some "pw"⟩).response
        = .json 500 [("error", .str "Registration failed")] ∧
    (loginHandler downEnv aliceWorld ⟨some "alice", some "Secret1!"⟩).response
        = .json 500 [("error", .str "Login failed")] ∧
    (loginHandler brokenHasherEnv aliceWorld ⟨some "alice", some "Secret1!"⟩).response
        = .json 500 [("error", .str "Login failed")] ∧
    (loginHandler brokenHasherEnv aliceWorld ⟨some "alice", some "Secret1!"⟩).world.sessions
        = aliceWorld.sessions :=
  ⟨((failure_answers_generic_500 downEnv emptyWorld "bob" "b@x.com" "pw"
      (by decide) (by decide) (by decide)).1 _ rfl).1,
   ((failure_answers_generic_500 brokenHasherEnv emptyWorld "bob" "b@x.com" "pw"
      (by decide) (by decide) (by decide)).2.1 _ (by decide) rfl).1,
   ((failure_answers_generic_500 racedEnv emptyWorld "bob" "b@x.com" "pw"
      (by decide) (by decide) (by decide)).2.2.2.1 "$2b$10$pw"
      (by decide) (by decide) (by decide)).1,
   ((failure_answers_generic_500 downEnv aliceWorld "alice" "b@x.com" "Secret1!"
      (by decide) (by decide) (by decide)).2.2.2.2.1 _ rfl).1,
   ((failure_answers_generic_500 brokenHasherEnv aliceWorld "alice" "b@x.com" "Secret1!"
      (by decide) (by decide) (by decide)).2.2.2.2.2.1 alice _ (by decide) rfl).1,
   (failure_answers_generic_500 brokenHasherEnv aliceWorld "alice" "b@x.com" "Secret1!"
      (by decide) (by decide) (by decide)).2.2.2.2.2.2 _ (by decide)⟩

/-! ## Registration conflicts (C2) -/

/-- C2, as stated, fails. The username is taken, but password and
confirm-password differ, and the answer is the validation message, not the
conflict message. And the lookup compares the trimmed value: when the stored
username is the padded `" alice"`, a request with that same username finds
nothing under `"alice"`, is answered 200 and inserts. -/
theorem register_conflict_counterexample :
    (∃ x ∈ aliceWorld.users, x.username = "alice") ∧
    (registerHandler sampleEnv aliceWorld
      ⟨some "alice", some "b@x.com", some "Secret1!", some "Secret2!"⟩).response
        = .json 400 [("error", .str "Passwords do not match")] ∧
    (registerHandler sampleEnv aliceWorld
      ⟨some "alice", some "b@x.com", some "Secret1!", some "Secret2!"⟩).response
        ≠ .json 400 [("error", .str "Username or email already exists")] ∧
    (∃ x ∈ paddedWorld.users, x.username = " alice") ∧
    (registerHandler sampleEnv paddedWorld
      ⟨some " alice", some "a@x.com", some "Secret1!", some "Secret1!"⟩).response
        = registerSuccess ∧
    (registerHandler sampleEnv paddedWorld
      ⟨some " alice", some "a@x.com", some "Secret1!", some "Secret1!"⟩).world.users.length
        = paddedWorld.users.length + 1 := by
  decide

/-- C2, amended: a registration request whose four fields are present and
non-empty, with password equal to confirm-password, and whose username or
email, with leading and trailing white space removed, equals that of a stored
user is answered (the lookup not failing) 400
`Username or email already exists`; it performs the lookup and nothing else
(no hash, no insert) and leaves the state unchanged, whatever the password and
the other identity field are. -/
theorem register_conflict (env : Env) (w : World) (u e p : String)
    (hu : u ≠ "") (he : e ≠ "") (hp : p ≠ "")
    (hfault : env.findOneFault = none)
    (htaken : ∃ x ∈ w.users, x.username = jsTrim u ∨ x.email = jsTrim e) :
    (registerHandler env w ⟨some u, some e, some p, some p⟩).response
      = .json 400 [("error", .str "Username or email already exists")] ∧
    (registerHandler env w ⟨some u, some e, some p, some p⟩).world = w ∧
    (registerHandler env w ⟨some u, some e, some p, some p⟩).effects
      = [Effect.findOne (.usernameOrEmail u e) (findOne env w (.usernameOrEmail u e))] := by
  obtain ⟨x, hx, hxm⟩ := htaken
  have hsome : ∃ y, w.users.find? (Filter.usernameOrEmail u e).matches = some y := by
    cases hfind : w.users.find? (Filter.usernameOrEmail u e).matches with
    | some y => exact ⟨y, rfl⟩
    | none =>
      rw [List.find?_eq_none] at hfind
      have := hfind x hx
      simp [Filter.matches] at this
      rcases hxm with h | h
      · exact absurd h this.1
      · exact absurd h this.2
  obtain ⟨y, hy⟩ := hsome
  have hfo := findOne_ok env w (.usernameOrEmail u e) hfault
  rw [hy] at hfo
  simp [registerHandler, registerTry, hu, he, hp, hfo, badRequest]

theorem register_conflict_witness :
    (∃ x ∈ aliceWorld.users, x.username = jsTrim " alice" ∨ x.email = jsTrim "b@x.com") ∧
    (registerHandler sampleEnv aliceWorld
      ⟨some " alice", some "b@x.com", some "pw", some "pw"⟩).response
        = .json 400 [("error", .str "Username or email already exists")] ∧
    (registerHandler sampleEnv aliceWorld
      ⟨some " alice", some "b@x.com", some "pw", some "pw"⟩).world = aliceWorld ∧
    (registerHandler sampleEnv aliceWorld
      ⟨some "bob", some "a@x.com", some "pw", some "pw"⟩).response
        = .json 400 [("error", .str "Username or email already exists")] :=
  have h := register_conflict sampleEnv aliceWorld " alice" "b@x.com" "pw"
    (by decide) (by decide) (by decide) rfl ⟨alice, by decide, by decide⟩
  have h' := register_conflict sampleEnv aliceWorld "bob" "a@x.com" "pw"
    (by decide) (by decide) (by decide) rfl ⟨alice, by decide, by decide⟩
  ⟨⟨alice, by decide, by decide⟩, h.1, h.2.1, h'.1⟩

/-! ## Successful registration (C6) and register-then-login (C1) -/

/-- The lookup of registration finds nothing when no stored user has the
trimmed username or the trimmed email. -/
theorem find_usernameOrEmail_none (users : List UserDoc) (u e : String)
    (hfresh : ∀ x ∈ users, x.username ≠ jsTrim u ∧ x.email ≠ jsTrim e) :
    users.find? (Filter.usernameOrEmail u e).matches = none := by
  rw [List.find?_eq_none]
  intro x hx
  have := hfresh x hx
  simp [Filter.matches, this.1, this.2]

/-- The outcome of a registration whose lookup, hash and save all succeed. -/
theorem registerHandler_of_ok (env : Env) (w w' : World) (u e p d : String)
    (hu : u ≠ "") (he : e ≠ "") (hp : p ≠ "")
    (hfind : findOne env w (.usernameOrEmail u e) = .ok none)
    (hhash : env.bcryptHash p 10 = .ok d)
    (hsave : save env w (newUser env u e d) = .ok w') :
    (registerHandler env w ⟨some u, some e, some p, some p⟩).response = registerSuccess ∧
    (registerHandler env w ⟨some u, some e, some p, some p⟩).world = w' ∧
    (registerHandler env w ⟨some u, some e, some p, some p⟩).effects
      = [Effect.findOne (.usernameOrEmail u e) (.ok none), Effect.hash p 10 (.ok d),
         Effect.save (newUser env u e d) (.ok ())] := by
  simp [registerHandler, registerTry, hu, he, hp, hfind, hhash, hsave]

/-- C1, as stated, fails, in three ways, all fields being present each time.
On the empty store a username of white space only is not registered: the
answer is 500. On the store holding `alice`, no user has the username
`" alice"`, and the registration of `" alice"` is answered 400. On the empty
store the registration of `" alice"` succeeds and the login with `" alice"`
and the same password succeeds, carrying the username `"alice"`, not the
submitted one. -/
theorem register_then_login_counterexample :
    emptyWorld.users = [] ∧
    (registerHandler sampleEnv emptyWorld
      ⟨some " ", some "a@x.com", some "Secret1!", some "Secret1!"⟩).response
        = .json 500 [("error", .str "Registration failed")] ∧
    (∀ x ∈ aliceWorld.users, x.username ≠ " alice" ∧ x.email ≠ "b@x.com") ∧
    (registerHandler sampleEnv aliceWorld
      ⟨some " alice", some "b@x.com", some "Secret1!", some "Secret1!"⟩).response
        = .json 400 [("error", .str "Username or email already exists")] ∧
    (registerHandler sampleEnv emptyWorld
      ⟨some " alice", some "a@x.com", some "Secret1!", some "Secret1!"⟩).response
        = registerSuccess ∧
    (loginHandler sampleEnv
      (registerHandler sampleEnv emptyWorld
        ⟨some " alice", some "a@x.com", some "Secret1!", some "Secret1!"⟩).world
      ⟨some " alice", some "Secret1!"⟩).response
        = loginSuccess "alice" "a@x.com" ∧
    loginSuccess "alice" "a@x.com" ≠ loginSuccess " alice" "a@x.com" := by
  decide

/-- C1, amended: when username, email and password are present, username and
email are not empty once leading and trailing white space is removed, no
stored user has the trimmed username or the trimmed email, and neither the
store nor the hasher fails (the digest is non-empty and verifies against the
password), the registration is answered 200 with `success: true`, and a login
on the resulting state with the same username and password, as submitted, is
answered 200 with `success: true` and the trimmed username and email. -/
theorem register_then_login (env₁ env₂ : Env) (w : World) (u e p d : String)
    (hp : p ≠ "")
    (htu : jsTrim u ≠ "") (hte : jsTrim e ≠ "")
    (hfresh : ∀ x ∈ w.users, x.username ≠ jsTrim u ∧ x.email ≠ jsTrim e)
    (hf₁ : env₁.findOneFault = none) (hs₁ : env₁.saveFault = none)
    (hhash : env₁.bcryptHash p 10 = .ok d) (hd : d ≠ "")
    (hf₂ : env₂.findOneFault = none) (hverify : env₂.bcryptCompare p d = .ok true) :
    (registerHandler env₁ w ⟨some u, some e, some p, some p⟩).response
      = .json 200 [("success", .bool true),
          ("message", .str "User registered successfully. Please login.")] ∧
    (loginHandler env₂ (registerHandler env₁ w ⟨some u, some e, some p, some p⟩).world
      ⟨some u, some p⟩).response
      = .json 200 [("success", .bool true), ("username", .str (jsTrim u)),
          ("email", .str (jsTrim e)), ("message", .str "Login successful")] := by
  have hu : u ≠ "" := by
    intro h
    rw [h] at htu
    exact htu (by decide)
  have he : e ≠ "" := by
    intro h
    rw [h] at hte
    exact hte (by decide)
  have hnone := find_usernameOrEmail_none w.users u e hfresh
  have hfind : findOne env₁ w (.usernameOrEmail u e) = .ok none := by
    rw [findOne_ok env₁ w _ hf₁, hnone]
  have hdoc : newUser env₁ u e d = ⟨env₁.objectId, jsTrim u, jsTrim e, d⟩ := rfl
  have hreq : requiredOk (newUser env₁ u e d) = true := by
    simp [hdoc, requiredOk, htu, hte, hd]
  have huniq : uniqueOk w.users (newUser env₁ u e d) = true := by
    simp only [hdoc, uniqueOk, List.all_eq_true]
    intro x hx
    have := hfresh x hx
    simp [this.1, this.2]
  have hsave := save_ok env₁ w _ hreq hs₁ huniq
  obtain ⟨hres, hworld, -⟩ := registerHandler_of_ok env₁ w _ u e p d hu he hp hfind hhash hsave
  refine ⟨by simpa [registerSuccess] using hres, ?_⟩
  rw [hworld]
  have hnone' : w.users.find? (Filter.username u).matches = none := by
    rw [List.find?_eq_none]
    intro x hx
    simp [Filter.matches, (hfresh x hx).1]
  have hlook : findOne env₂ { w with users := w.users ++ [newUser env₁ u e d] }
      (.username u) = .ok (some ⟨env₁.objectId, jsTrim u, jsTrim e, d⟩) := by
    rw [findOne_ok env₂ _ _ hf₂]
    simp [List.find?_append, hnone', hdoc, Filter.matches]
  simp [loginHandler, loginTry, hu, hp, hlook, hverify, loginSuccess]

theorem register_then_login_witness :
    (registerHandler sampleEnv emptyWorld
      ⟨some " alice", some "a@x.com ", some "Secret1!", some "Secret1!"⟩).response
      = .json 200 [("success", .bool true),
          ("message", .str "User registered successfully. Please login.")] ∧
    (loginHandler sampleEnv
      (registerHandler sampleEnv emptyWorld
        ⟨some " alice", some "a@x.com ", some "Secret1!", some "Secret1!"⟩).world
      ⟨some " alice", some "Secret1!"⟩).response
      = .json 200 [("success", .bool true), ("username", .str "alice"),
          ("email", .str "a@x.com"), ("message", .str "Login successful")] :=
  register_then_login sampleEnv sampleEnv emptyWorld " alice" "a@x.com " "Secret1!"
    "$2b$10$Secret1!" (by decide) (by decide) (by decide)
    (by decide) rfl rfl (by decide) (by decide) rfl (by decide)

/-- C6, as stated, fails: the registration of the username `" alice"` succeeds
and the inserted user has the username `"alice"`, not the submitted one. -/
theorem register_success_counterexample :
    (registerHandler sampleEnv emptyWorld
      ⟨some " alice", some "a@x.com", some "Secret1!", some "Secret1!"⟩).response
        = registerSuccess ∧
    (registerHandler sampleEnv emptyWorld
      ⟨some " alice", some "a@x.com", some "Secret1!", some "Secret1!"⟩).world.users
        = [⟨1, "alice", "a@x.com", "$2b$10$Secret1!"⟩] ∧
    ¬ ∃ x ∈ (registerHandler sampleEnv emptyWorld
      ⟨some " alice", some "a@x.com", some "Secret1!", some "Secret1!"⟩).world.users,
        x.username = " alice" := by
  decide

/-- The digest of the stand-in hasher is longer than its input, hence
different from it. -/
theorem sampleHash_ne (q d : String) (h : sampleEnv.bcryptHash q 10 = .ok d) : d ≠ q := by
  have hd : d = "$2b$10$" ++ q := by
    have h' : (Except.ok ("$2b$" ++ toString 10 ++ "$" ++ q) : Except JsError String)
        = .ok d := h
    injection h' with h'
    rw [← h']
    rfl
  intro hq
  have hlen := congrArg String.length hq
  rw [hd, String.length_append] at hlen
  have : ("$2b$10$" : String).length = 7 := by decide
  omega

/-- C6, amended: a registration answered 200 had its four fields present with
password equal to confirm-password; it performed one lookup, one hash of the
submitted password with work factor 10 and exactly one store write, in that
order; the collection grew by one user whose username and email are the
submitted ones with leading and trailing white space removed and whose
password field is the output of the hasher, never the plaintext itself (the
digest of the hasher being different from its input); the response is the
acknowledgment with `success: true` and the message; the session registry is
unchanged. -/
theorem register_success (env : Env) (w : World) (req : RegisterBody)
    (hdigest : ∀ q d, env.bcryptHash q 10 = .ok d → d ≠ q)
    (hok : (registerHandler env w req).response.status = 200) :
    ∃ u e p d, req = ⟨some u, some e, some p, some p⟩ ∧
      env.bcryptHash p 10 = .ok d ∧
      d ≠ p ∧
      (∀ x ∈ (registerHandler env w req).world.users, x ∉ w.users → x.password ≠ p) ∧
      (registerHandler env w req).world.users
        = w.users ++ [⟨env.objectId, jsTrim u, jsTrim e, d⟩] ∧
      (registerHandler env w req).effects
        = [Effect.findOne (.usernameOrEmail u e) (.ok none), Effect.hash p 10 (.ok d),
           Effect.save ⟨env.objectId, jsTrim u, jsTrim e, d⟩ (.ok ())] ∧
      ((registerHandler env w req).effects.filter Effect.isSave).length = 1 ∧
      (registerHandler env w req).response
        = .json 200 [("success", .bool true),
            ("message", .str "User registered successfully. Please login.")] ∧
      (registerHandler env w req).world.sessions = w.sessions := by
  obtain ⟨a, b, c, c'⟩ := req
  cases a with
  | none => simp [registerHandler, registerTry, badRequest, Response.status] at hok
  | some u =>
  cases b with
  | none => simp [registerHandler, registerTry, badRequest, Response.status] at hok
  | some e =>
  cases c with
  | none => simp [registerHandler, registerTry, badRequest, Response.status] at hok
  | some p =>
  cases c' with
  | none => simp [registerHandler, registerTry, badRequest, Response.status] at hok
  | some p' =>
  by_cases hempty : (u == "" || e == "" || p == "" || p' == "") = true
  · simp [registerHandler, registerTry, hempty, badRequest, Response.status] at hok
  by_cases hpp : (p != p') = true
  · simp [registerHandler, registerTry, hempty, hpp, badRequest, Response.status] at hok
  have hpeq : p = p' := by simpa using hpp
  subst hpeq
  rcases hf : findOne env w (.usernameOrEmail u e) with err | _ | x
  · simp [registerHandler, registerTry, hempty, hf, serverError, Response.status] at hok
  · rcases hh : env.bcryptHash p 10 with err | d
    · simp [registerHandler, registerTry, hempty, hf, hh, serverError, Response.status] at hok
    · rcases hs : save env w (newUser env u e d) with err | w'
      · simp [registerHandler, registerTry, hempty, hf, hh, hs, serverError,
          Response.status] at hok
      · have hw := save_ok_inv env w w' _ hs
        have hne : u ≠ "" ∧ e ≠ "" ∧ p ≠ "" := by
          simp only [Bool.or_eq_true, beq_iff_eq, not_or] at hempty
          exact ⟨hempty.1.1.1, hempty.1.1.2, hempty.1.2⟩
        obtain ⟨h1, h2, h3⟩ :=
          registerHandler_of_ok env w w' u e p d hne.1 hne.2.1 hne.2.2 hf hh hs
        refine ⟨u, e, p, d, rfl, hh, hdigest p d hh, ?_, ?_⟩
        · rw [h2, hw]
          intro x hx hnew
          simp only [List.mem_append, List.mem_singleton] at hx
          rcases hx with hx | hx
          · exact absurd hx hnew
          · rw [hx]
            exact hdigest p d hh
        · rw [h1, h2, h3, hw]
          simp [newUser, registerSuccess, Effect.isSave]
  · simp [registerHandler, registerTry, hempty, hf, badRequest, Response.status] at hok

theorem register_success_witness :
    (∀ q d, sampleEnv.bcryptHash q 10 = .ok d → d ≠ q) ∧
    (registerHandler sampleEnv emptyWorld
      ⟨some " alice", some "a@x.com", some "Secret1!", some "Secret1!"⟩).response.status
        = 200 ∧
    ∃ u e p d, (⟨some " alice", some "a@x.com", some "Secret1!", some "Secret1!"⟩
        : RegisterBody) = ⟨some u, some e, some p, some p⟩ ∧
      sampleEnv.bcryptHash p 10 = .ok d ∧
      d ≠ p ∧
      (registerHandler sampleEnv emptyWorld
        ⟨some " alice", some "a@x.com", some "Secret1!", some "Secret1!"⟩).world.users
        = emptyWorld.users ++ [⟨sampleEnv.objectId, jsTrim u, jsTrim e, d⟩] :=
  have h := register_success sampleEnv emptyWorld
    ⟨some " alice", some "a@x.com", some "Secret1!", some "Secret1!"⟩
    sampleHash_ne (by decide)
  ⟨sampleHash_ne, by decide, by
    obtain ⟨u, e, p, d, h1, h2, h3, -, h5, -⟩ := h
    exact ⟨u, e, p, d, h1, h2, h3, h5⟩⟩

/-! ## The session registry and successful login (C5) -/

/-- The lookup of a key, one entry at a time. -/
theorem sessionsGet_cons (x : String × Session) (xs : List (String × Session)) (k : String) :
    sessionsGet (x :: xs) k = if x.1 = k then some x.2 else sessionsGet xs k := by
  by_cases h : x.1 = k <;> simp [sessionsGet, List.find?_cons, h]

/-- A key has no value exactly when no entry carries it. -/
theorem sessionsGet_eq_none_iff (m : List (String × Session)) (k : String) :
    sessionsGet m k = none ↔ m.any (fun e => e.1 == k) = false := by
  induction m with
  | nil => simp [sessionsGet]
  | cons x xs ih =>
    rw [sessionsGet_cons]
    by_cases hx : x.1 = k
    · simp [hx]
    · simp [hx, ih]

/-- Lookup after overwriting the entries under `k`. -/
theorem sessionsGet_overwrite (m : List (String × Session)) (k k' : String) (v : Session) :
    sessionsGet (m.map (fun e => if e.1 == k then (k, v) else e)) k'
      = if k' = k then (sessionsGet m k).map (fun _ => v) else sessionsGet m k' := by
  induction m with
  | nil => simp [sessionsGet]
  | cons x xs ih =>
    rw [List.map_cons, sessionsGet_cons, ih]
    by_cases hk : k' = k
    · subst hk
      by_cases hx : x.1 = k'
      · simp [hx, sessionsGet_cons]
      · simp [hx, sessionsGet_cons]
    · by_cases hx : x.1 = k
      · have hx' : ¬ x.1 = k' := fun h => hk (h.symm.trans hx)
        simp [hx, hk, sessionsGet_cons, hx', Ne.symm hk]
      · by_cases hx' : x.1 = k'
        · simp [hx, hk, sessionsGet_cons, hx']
        · simp [hx, hk, sessionsGet_cons, hx']

/-- Lookup after appending an entry. -/
theorem sessionsGet_append_single (m : List (String × Session)) (k k' : String) (v : Session) :
    sessionsGet (m ++ [(k, v)]) k'
      = (sessionsGet m k').or (if k = k' then some v else none) := by
  induction m with
  | nil => by_cases h : k = k' <;> simp [sessionsGet, h]
  | cons x xs ih =>
    rw [List.cons_append, sessionsGet_cons, sessionsGet_cons, ih]
    by_cases hx : x.1 = k' <;> simp [hx]

/-- After `userSessions[k] = v`, the value at `k` is `v`. -/
theorem sessionsGet_put_same (m : List (String × Session)) (k : String) (v : Session) :
    sessionsGet (sessionsPut m k v) k = some v := by
  unfold sessionsPut
  by_cases hany : m.any (fun e => e.1 == k) = true
  · rw [if_pos hany, sessionsGet_overwrite]
    have hne : sessionsGet m k ≠ none := by
      rw [Ne, sessionsGet_eq_none_iff, hany]
      simp
    obtain ⟨s, hs⟩ := Option.ne_none_iff_exists'.1 hne
    simp [hs]
  · rw [if_neg hany, sessionsGet_append_single]
    have hnone : sessionsGet m k = none :=
      (sessionsGet_eq_none_iff m k).2 (Bool.eq_false_iff.2 hany)
    simp [hnone]

/-- After `userSessions[k] = v`, every other key keeps its value. -/
theorem sessionsGet_put_other (m : List (String × Session)) (k k' : String) (v : Session)
    (hk : k' ≠ k) : sessionsGet (sessionsPut m k v) k' = sessionsGet m k' := by
  unfold sessionsPut
  by_cases hany : m.any (fun e => e.1 == k) = true
  · rw [if_pos hany, sessionsGet_overwrite, if_neg hk]
  · rw [if_neg hany, sessionsGet_append_single, if_neg (Ne.symm hk)]
    simp

/-- The assignment adds an entry exactly when the key is new. -/
theorem sessionsPut_length (m : List (String × Session)) (k : String) (v : Session) :
    (sessionsPut m k v).length
      = if sessionsGet m k = none then m.length + 1 else m.length := by
  unfold sessionsPut
  by_cases hany : m.any (fun e => e.1 == k) = true
  · have hne : sessionsGet m k ≠ none := by
      rw [Ne, sessionsGet_eq_none_iff, hany]
      simp
    rw [if_pos hany, if_neg hne, List.length_map]
  · have hnone : sessionsGet m k = none :=
      (sessionsGet_eq_none_iff m k).2 (Bool.eq_false_iff.2 hany)
    rw [if_neg hany, if_pos hnone, List.length_append]
    rfl

/-- C5, as stated, fails: `alice` logs in, then `bob` logs in within the same
millisecond and `Math.random()` gives the same value; the second login
succeeds, the generated identifier is already a key, the entry of `alice` is
overwritten and the registry has as many entries as before. -/
theorem login_success_counterexample :
    (loginHandler sampleEnv twoUsersWorld ⟨some "alice", some "Secret1!"⟩).world
      = staleWorld ∧
    (loginHandler sampleEnv staleWorld ⟨some "bob", some "hunter2"⟩).response
      = loginSuccess "bob" "b@x.com" ∧
    sessionIdOf sampleEnv = "session_1000_0.5" ∧
    staleWorld.sessions.length = 1 ∧
    (loginHandler sampleEnv staleWorld ⟨some "bob", some "hunter2"⟩).world.sessions
      = [("session_1000_0.5", ⟨2, "bob", "b@x.com", 1000⟩)] ∧
    (loginHandler sampleEnv staleWorld
      ⟨some "bob", some "hunter2"⟩).world.sessions.length
      ≠ staleWorld.sessions.length + 1 := by
  decide

/-- C5, amended: when username and password are present, the lookup finds a
user and the password verifies against the stored digest, the response is 200
with `success: true` and the username and email of the stored user; the
collection is unchanged; the handler writes the registry once, under the
generated identifier, with that user's id, username and email; every other
key keeps its value; exactly one entry is added when the generated identifier
was not already a key of the registry; and the response body contains neither
the session identifier nor the stored password digest: its fields are
`success`, `username`, `email` and `message`, and it is the same for every
clock, random value, user id and digest. -/
theorem login_success (env : Env) (w : World) (u p : String) (user : UserDoc)
    (hu : u ≠ "") (hp : p ≠ "")
    (hfound : findOne env w (.username u) = .ok (some user))
    (hverify : env.bcryptCompare p user.password = .ok true) :
    (loginHandler env w ⟨some u, some p⟩).response
      = .json 200 [("success", .bool true), ("username", .str user.username),
          ("email", .str user.email), ("message", .str "Login successful")] ∧
    (loginHandler env w ⟨some u, some p⟩).response.keys
      = ["success", "username", "email", "message"] ∧
    (loginHandler env w ⟨some u, some p⟩).world.users = w.users ∧
    (loginHandler env w ⟨some u, some p⟩).effects
      = [Effect.findOne (.username u) (.ok (some user)),
         Effect.compare p user.password (.ok true),
         Effect.sessionPut (sessionIdOf env)
           ⟨user._id, user.username, user.email, env.dateNow 1⟩] ∧
    sessionsGet (loginHandler env w ⟨some u, some p⟩).world.sessions (sessionIdOf env)
      = some ⟨user._id, user.username, user.email, env.dateNow 1⟩ ∧
    (∀ k, k ≠ sessionIdOf env →
      sessionsGet (loginHandler env w ⟨some u, some p⟩).world.sessions k
        = sessionsGet w.sessions k) ∧
    (sessionsGet w.sessions (sessionIdOf env) = none →
      (loginHandler env w ⟨some u, some p⟩).world.sessions.length
        = w.sessions.length + 1) ∧
    (∀ (env' : Env) (w' : World) (u' p' : String) (user' : UserDoc),
      u' ≠ "" → p' ≠ "" →
      findOne env' w' (.username u') = .ok (some user') →
      env'.bcryptCompare p' user'.password = .ok true →
      user'.username = user.username → user'.email = user.email →
      (loginHandler env' w' ⟨some u', some p'⟩).response
        = (loginHandler env w ⟨some u, some p⟩).response) := by
  have hout : loginHandler env w ⟨some u, some p⟩
      = ⟨loginSuccess user.username user.email,
          { w with sessions := sessionsPut w.sessions (sessionIdOf env) (sessionOf env user) },
          [Effect.findOne (.username u) (.ok (some user)),
           Effect.compare p user.password (.ok true),
           Effect.sessionPut (sessionIdOf env) (sessionOf env user)]⟩ := by
    simp [loginHandler, loginTry, hu, hp, hfound, hverify]
  rw [hout]
  refine ⟨rfl, rfl, rfl, rfl, ?_, ?_, ?_, ?_⟩
  · exact sessionsGet_put_same _ _ _
  · intro k hk
    exact sessionsGet_put_other _ _ _ _ hk
  · intro hnew
    simp only [sessionsPut_length, hnew, if_true]
  · intro env' w' u' p' user' hu' hp' hfound' hverify' hname hmail
    simp [loginHandler, loginTry, hu', hp', hfound', hverify', hname, hmail]

theorem login_success_witness :
    findOne sampleEnv aliceWorld (.username "alice ") = .ok (some alice) ∧
    (loginHandler sampleEnv aliceWorld ⟨some "alice ", some "Secret1!"⟩).response
      = .json 200 [("success", .bool true), ("username", .str "alice"),
          ("email", .str "a@x.com"), ("message", .str "Login successful")] ∧
    sessionsGet aliceWorld.sessions (sessionIdOf sampleEnv) = none ∧
    (loginHandler sampleEnv aliceWorld
      ⟨some "alice ", some "Secret1!"⟩).world.sessions.length = 0 + 1 :=
  have h := login_success sampleEnv aliceWorld "alice " "Secret1!" alice
    (by decide) (by decide) (by decide) (by decide)
  ⟨by decide, h.1, by decide, h.2.2.2.2.2.2.1 (by decide)⟩

/-! ## The welcome page (C7) -/

/-- An escape is three characters long. -/
theorem readEscape_length (cs rest : List Char) (b : Nat)
    (h : readEscape cs = some (b, rest)) : rest.length + 3 = cs.length := by
  unfold readEscape at h
  split at h
  · split at h
    · simp only [Option.some.injEq, Prod.mk.injEq] at h
      simp [h.2]
    · simp at h
  · simp at h

/-- Reading escapes never lengthens the input. -/
theorem readEscapes_length (n : Nat) : ∀ (cs rest : List Char) (bs : List Nat),
    readEscapes n cs = some (bs, rest) → rest.length ≤ cs.length := by
  induction n with
  | zero =>
    intro cs rest bs h
    simp only [readEscapes, Option.some.injEq, Prod.mk.injEq] at h
    simp [h.2]
  | succ n ih =>
    intro cs rest bs h
    simp only [readEscapes] at h
    split at h
    · simp at h
    · rename_i b r hr
      split at h
      · simp at h
      · rename_i bs' r' hr'
        simp only [Option.some.injEq, Prod.mk.injEq] at h
        have h1 := readEscape_length _ _ _ hr
        have h2 := ih _ _ _ hr'
        rw [← h.2]
        omega

/-- The empty input decodes to the empty output, with any fuel. -/
theorem decodeChars_nil (fuel : Nat) : decodeChars fuel [] = .ok [] := by
  cases fuel <;> rfl

/-- The decoding loop does not depend on the fuel once the fuel is at least the
length of the input: the fuel given by `decodeURIComponent` never runs out. -/
theorem decodeChars_fuel (n : Nat) : ∀ (f₁ f₂ : Nat) (cs : List Char),
    cs.length ≤ n → n ≤ f₁ → n ≤ f₂ → decodeChars f₁ cs = decodeChars f₂ cs := by
  induction n with
  | zero =>
    intro f₁ f₂ cs hcs _ _
    have : cs = [] := List.length_eq_zero.1 (Nat.le_zero.1 hcs)
    subst this
    rw [decodeChars_nil, decodeChars_nil]
  | succ n ih =>
    intro f₁ f₂ cs hcs h₁ h₂
    cases cs with
    | nil => rw [decodeChars_nil, decodeChars_nil]
    | cons c rest =>
      obtain ⟨a, rfl⟩ : ∃ a, f₁ = a + 1 := ⟨f₁ - 1, by omega⟩
      obtain ⟨b, rfl⟩ : ∃ b, f₂ = b + 1 := ⟨f₂ - 1, by omega⟩
      have ha : n ≤ a := by omega
      have hb : n ≤ b := by omega
      have hrest : rest.length ≤ n := by simpa using hcs
      simp only [decodeChars]
      split
      · rw [ih a b rest hrest ha hb]
      · split
        · rfl
        · rename_i byte rest1 hr
          have hl1 := readEscape_length _ _ _ hr
          have hrest1 : rest1.length ≤ n := by simp at hl1; omega
          split
          · rw [ih a b rest1 hrest1 ha hb]
          · split
            · rfl
            · split
              · rfl
              · rename_i bs rest2 hr2
                have hl2 := readEscapes_length _ _ _ _ hr2
                rw [ih a b rest2 (by omega) ha hb]

/-- C7, at the failing input: with the username `%` (and an email present) the
handler neither redirects nor sends a page. The `%` is not followed by two
hexadecimal digits, `decodeURIComponent` throws a `URIError`, and the error
leaves the handler uncaught. -/
theorem welcome_malformed_escape_throws :
    readEscape ['%'] = none ∧
    decodeURIComponent "%" = .error ⟨"URIError", "URI malformed"⟩ ∧
    welcomeHandler ⟨some "%", some "a@x.com"⟩ = .error ⟨"URIError", "URI malformed"⟩ ∧
    welcomeHandler ⟨some "%", some "a@x.com"⟩ ≠ .ok (.redirect "/") ∧
    ∀ page, welcomeHandler ⟨some "%", some "a@x.com"⟩ ≠ .ok (.send 200 page) := by
  have h : welcomeHandler ⟨some "%", some "a@x.com"⟩ = .error ⟨"URIError", "URI malformed"⟩ := by
    decide
  refine ⟨by decide, by decide, h, ?_, ?_⟩
  · rw [h]; simp
  · intro page
    rw [h]; simp

/-- The two outcomes of the welcome route on inputs that decode: a missing
(absent or empty) parameter redirects to `/`; otherwise the page is the
template with the two decoded values inserted as they are. -/
theorem welcomeHandler_outcomes (q : WelcomeQuery) :
    ((falsy q.username = true ∨ falsy q.email = true) →
      welcomeHandler q = .ok (.redirect "/")) ∧
    (∀ u m du dm, q = ⟨some u, some m⟩ → u ≠ "" → m ≠ "" →
      decodeURIComponent u = .ok du → decodeURIComponent m = .ok dm →
      welcomeHandler q
        = .ok (.send 200 (welcomeHead ++ du ++ welcomeMiddle ++ dm ++ welcomeTail))) := by
  constructor
  · intro h
    obtain ⟨a, b⟩ := q
    cases a <;> cases b <;> simp [welcomeHandler, falsy] at h ⊢
    rcases h with h | h <;> simp [h]
  · intro u m du dm hq hu hm hdu hdm
    subst hq
    simp [welcomeHandler, hu, hm, hdu, hdm, welcomePage]

end WebApp
